import Mathlib

/-!
# Daily closing / cash-reconciliation engine — verification development

Shallow embedding of the daily-closing engine of the mooco-Daily
application.  The definitions below are translated from
`src/components/DayClosing.tsx` and `src/services/supabase.ts`:

* JS numbers that hold money are modelled as `ℚ`; stock quantities pass
  through `parseInt` in the source, so they are modelled as `ℤ`.
* The TS `remaining` field is a string where `''` means "not entered";
  it is modelled as `Option ℤ` (`none` = `''`).
* The record store (Supabase tables) is modelled as a `Store` structure;
  each table is a list of rows.  Lists of closings are kept newest-first,
  matching the `order('created_at', { ascending: false })` queries; an
  insert therefore prepends.
* Dates (`date_str`) are modelled as natural numbers ordered like the
  `YYYY-MM-DD` strings.
-/

/-- A row of the `products` table (`database-schema.sql`): `id`,
`sale_price NUMERIC`, `current_opening_stock NUMERIC`.  The application
only ever writes `parseInt` results into `current_opening_stock`, so it
is modelled as `ℤ`. -/
structure ProductRow where
  id : Nat
  sale_price : ℚ
  current_opening_stock : ℤ
  deriving Repr, DecidableEq

/-- Transaction type check constraint: `STOCK_IN`, `EXPENSE`, `INCOME`. -/
inductive TxnType where
  | stockIn
  | expense
  | income
  deriving Repr, DecidableEq

/-- A row of the `transactions` table. `is_return` is `NULL` or boolean in
the store; the queries treat `NULL` as `false` (`is_return.is.null,
is_return.eq.false`), so it is modelled as `Bool`. -/
structure TxnRow where
  id : Nat
  type : TxnType
  product_id : Option Nat
  quantity : Option ℤ
  amount : Option ℚ
  is_return : Bool
  return_of : Option Nat
  date_str : Nat
  deriving Repr, DecidableEq

/-- A row of the `cash_withdrawals` table. -/
structure WithdrawalRow where
  id : Nat
  amount : ℚ
  date_str : Nat
  deriving Repr, DecidableEq

/-- `closing_type ∈ {'partial', 'final'}`; the `'partial'` value is the
editable draft. -/
inductive ClosingType where
  | draft
  | final
  deriving Repr, DecidableEq

/-- A row of the `daily_closings` table.  `report_json` stores the
serialized `{closingStock: [{productId, newOpeningStock}]}` blob; it is
modelled as the association list of those pairs. -/
structure ClosingRow where
  id : Nat
  date_str : Nat
  total_revenue : ℚ
  cash_received : Option ℚ
  total_withdrawals : ℚ
  closing_type : ClosingType
  report_json : Option (List (Nat × ℤ))
  next_day_opening_cash : Option ℚ
  deriving Repr, DecidableEq

/-- The record store: one list per table.  `closings` is kept
newest-first.  `nextId` models the serial primary key used for fresh
inserts into `daily_closings`. -/
structure Store where
  products : List ProductRow
  transactions : List TxnRow
  closings : List ClosingRow
  withdrawals : List WithdrawalRow
  nextId : Nat
  deriving Repr, DecidableEq

/-- `closing_type === 'final'` test used throughout the source. -/
def ClosingRow.isFinal (c : ClosingRow) : Bool :=
  match c.closing_type with
  | ClosingType.final => true
  | ClosingType.draft => false

/-! ## Persistence adapter reads (`src/services/supabase.ts`) -/

/-- `fetchTodayStockIn(includeReturns = false)`
(`src/services/supabase.ts:156-182`): filters `type = 'STOCK_IN'` and
`date_str = today`; unless `includeReturns`, rows with `is_return` are
dropped at the query level.  The `has_been_returned` flag is derived from
the rows of the *already filtered* result set, exactly as in the source
(so with the default flag it can never be true). -/
def fetchTodayStockIn (store : Store) (today : Nat) (includeReturns : Bool) :
    List (TxnRow × Bool) :=
  let base := store.transactions.filter fun t =>
    decide (t.type = TxnType.stockIn) && decide (t.date_str = today)
  let data := if includeReturns then base else base.filter fun t => !t.is_return
  let returnedIds := (data.filter fun t => t.is_return && t.return_of.isSome).filterMap
    (fun t => t.return_of)
  data.map fun t => (t, returnedIds.contains t.id)

/-- `fetchTodayExpenses(includeReturns = false)`
(`src/services/supabase.ts:184-209`), same shape as `fetchTodayStockIn`. -/
def fetchTodayExpenses (store : Store) (today : Nat) (includeReturns : Bool) :
    List (TxnRow × Bool) :=
  let base := store.transactions.filter fun t =>
    decide (t.type = TxnType.expense) && decide (t.date_str = today)
  let data := if includeReturns then base else base.filter fun t => !t.is_return
  let returnedIds := (data.filter fun t => t.is_return && t.return_of.isSome).filterMap
    (fun t => t.return_of)
  data.map fun t => (t, returnedIds.contains t.id)

/-- `fetchTodayIncome(includeReturns = false)`
(`src/services/supabase.ts:211-236`). -/
def fetchTodayIncome (store : Store) (today : Nat) (includeReturns : Bool) :
    List (TxnRow × Bool) :=
  let base := store.transactions.filter fun t =>
    decide (t.type = TxnType.income) && decide (t.date_str = today)
  let data := if includeReturns then base else base.filter fun t => !t.is_return
  let returnedIds := (data.filter fun t => t.is_return && t.return_of.isSome).filterMap
    (fun t => t.return_of)
  data.map fun t => (t, returnedIds.contains t.id)

/-- `fetchTodayClosings` (`src/services/supabase.ts:346-356`): all rows for
today, newest first (the store list is already newest-first). -/
def fetchTodayClosings (store : Store) (today : Nat) : List ClosingRow :=
  store.closings.filter fun c => decide (c.date_str = today)

/-- `fetchTodayWithdrawals` (`src/services/supabase.ts:304-314`). -/
def fetchTodayWithdrawals (store : Store) (today : Nat) : List WithdrawalRow :=
  store.withdrawals.filter fun w => decide (w.date_str = today)

/-- `isFinalClosingDoneToday` (`src/services/supabase.ts:374-385`): a
`maybeSingle()` over `closing_type = 'final'` rows for today.  With zero
rows it yields `null` (→ `false`); with one row it yields the row
(→ `true`); with two or more rows `maybeSingle` reports an error and the
function returns `false` (`if (error) return false`). -/
def isFinalClosingDoneToday (store : Store) (today : Nat) : Bool :=
  decide ((store.closings.filter fun c =>
    decide (c.date_str = today) && c.isFinal).length = 1)

/-! ## Component state (`src/components/DayClosing.tsx`) -/

/-- The per-product row of the stock reconciliation table
(`interface StockItem`, `DayClosing.tsx:40-47`).  `remaining` is the
user-entered count (`none` models the empty string). -/
structure StockItem where
  product : ProductRow
  opening : ℤ
  stockIn : ℤ
  available : ℤ
  remaining : Option ℤ
  sold : ℤ
  deriving Repr, DecidableEq

/-- The in-memory React state of the `DayClosing` component that the
closing engine reads and writes (display-only fields omitted). -/
structure CState where
  stockItems : List StockItem
  todaySales : ℚ
  todayExpenses : ℚ
  todayIncome : ℚ
  openingCash : ℚ
  openingCashLocked : Bool
  isFirstTimeUser : Bool
  cashInDrawer : Option ℚ
  withdrawals : List WithdrawalRow
  existingClosing : Option ClosingRow
  isLocked : Bool
  deriving Repr, DecidableEq

/-- `totalWithdrawals` memo (`DayClosing.tsx:261-263`):
`withdrawals.reduce((sum, w) => sum + (w.amount || 0), 0)`. -/
def totalWithdrawalsOf (s : CState) : ℚ :=
  s.withdrawals.foldl (fun sum w => sum + w.amount) 0

/-- `salesFromStock` inside the `calculations` memo
(`DayClosing.tsx:268-274`): items with an entered `remaining` contribute
`(available - remaining) * sale_price`; items without an entry contribute
nothing. -/
def salesFromStock (items : List StockItem) : ℚ :=
  items.foldl
    (fun sum item =>
      match item.remaining with
      | some r => sum + ((item.available - r : ℤ) : ℚ) * item.product.sale_price
      | none => sum)
    0

/-- The expected-cash formula (`DayClosing.tsx:277`):
`openingCash + sales + income - expenses - withdrawals`. -/
def expectedCashCalc (openingCash totalRevenue totalIncome totalExpenses
    totalWithdrawals : ℚ) : ℚ :=
  openingCash + totalRevenue + totalIncome - totalExpenses - totalWithdrawals

/-- Result record of the `calculations` memo (`DayClosing.tsx:266-291`). -/
structure Calculations where
  sales : ℚ
  openingCash : ℚ
  expectedCash : ℚ
  actualCash : ℚ
  difference : ℚ
  hasLoss : Bool
  hasExtra : Bool
  isMatch : Bool
  deriving Repr, DecidableEq

/-- The `calculations` memo (`DayClosing.tsx:266-291`).
`actualCash = parseFloat(cashInDrawer) || 0` (empty input → 0);
`isMatch = Math.abs(difference) < 1` — a strict comparison. -/
def calculations (s : CState) : Calculations :=
  let sales := salesFromStock s.stockItems
  let expectedCash :=
    expectedCashCalc s.openingCash sales s.todayIncome s.todayExpenses (totalWithdrawalsOf s)
  let actualCash := s.cashInDrawer.getD 0
  let difference := actualCash - expectedCash
  { sales := sales
    openingCash := s.openingCash
    expectedCash := expectedCash
    actualCash := actualCash
    difference := difference
    hasLoss := decide (difference < 0)
    hasExtra := decide (difference > 0)
    isMatch := decide (|difference| < 1) }

/-- Delta classification as rendered by the component
(`DayClosing.tsx:815-823` and `:662-671`): `isMatch` wins, otherwise a
negative difference is a loss (`Math.abs(difference)` shown), otherwise an
extra (`difference` shown). -/
inductive CashClass where
  | matched
  | shortage (loss : ℚ)
  | surplus (extra : ℚ)
  deriving Repr, DecidableEq

/-- The classification of a cash difference, extracted from the ternary
chain `isMatch ? Match : hasLoss ? Loss : Extra`. -/
def classifyDelta (difference : ℚ) : CashClass :=
  if |difference| < 1 then CashClass.matched
  else if difference < 0 then CashClass.shortage |difference|
  else CashClass.surplus difference

/-- `canSave` memo (`DayClosing.tsx:378-382`). -/
def canSave (s : CState) : Bool :=
  (s.stockItems.any fun item => item.remaining.isSome) || s.cashInDrawer.isSome

/-- `canLock` memo (`DayClosing.tsx:385-390`): every stock row filled,
cash entered, and opening cash available (`openingCashLocked ||
!isFirstTimeUser`). -/
def canLock (s : CState) : Bool :=
  (s.stockItems.all fun item => item.remaining.isSome) &&
    s.cashInDrawer.isSome &&
    (s.openingCashLocked || !s.isFirstTimeUser)

/-! ## State updates -/

/-- Body of the `setStockItems` map inside `updateRemaining`
(`DayClosing.tsx:239-258`): for the matching product, an empty input
clears the row; a numeric input is clamped below by `Math.max(0, ·)` and
above by `Math.min(·, item.available)`; `sold` is recomputed. -/
def updateRemainingItem (productId : Nat) (value : Option ℤ) (item : StockItem) :
    StockItem :=
  if item.product.id = productId then
    match value with
    | none => { item with remaining := none, sold := 0 }
    | some v =>
      let numValue := max 0 v
      let cappedRemaining := min numValue item.available
      { item with remaining := some cappedRemaining,
                  sold := item.available - cappedRemaining }
  else item

/-- `updateRemaining(productId, value)` (`DayClosing.tsx:239-258`); the
input string is modelled post-`parseInt` as `Option ℤ`.  A locked day is a
no-op. -/
def updateRemaining (s : CState) (productId : Nat) (value : Option ℤ) : CState :=
  if s.isLocked then s
  else { s with stockItems := s.stockItems.map (updateRemainingItem productId value) }

/-! ## Loading the day (`loadData`, `DayClosing.tsx:94-236`) -/

/-- The previous-day opening-cash query (`DayClosing.tsx:122-129`):
`closing_type = 'final'`, `date_str < today`, ordered by `date_str`
descending, `limit(1)` — the newest prior final record, if any. -/
def findPrevFinalClosing (store : Store) (today : Nat) : Option ClosingRow :=
  (store.closings.filter fun c => c.isFinal && decide (c.date_str < today)).foldl
    (fun best c =>
      match best with
      | none => some c
      | some b => if c.date_str > b.date_str then some c else best)
    none

/-- The `savedStock` map built from the parsed `report_json`
(`DayClosing.tsx:158-172`): `report.closingStock.forEach(item =>
savedStock[item.productId] = item.newOpeningStock)` — a later entry for
the same product overwrites an earlier one. -/
def savedStockLookup (closingStock : List (Nat × ℤ)) (productId : Nat) : Option ℤ :=
  closingStock.foldl (fun acc p => if p.1 = productId then some p.2 else acc) none

/-- Per-product stock item construction shared by both branches of
`loadData` (`DayClosing.tsx:175-192` and `:209-225`): the stock-in total
filters `product_id` matches and `!is_return` over the (already
return-free) fetched data; `available = opening + stockIn`;
saved remaining values come from `savedStock`. -/
def buildStockItem (stockInData : List TxnRow) (savedStock : Nat → Option ℤ)
    (product : ProductRow) : StockItem :=
  let productStockIn :=
    (stockInData.filter fun s =>
        decide (s.product_id = some product.id) && !s.is_return).foldl
      (fun sum s => sum + s.quantity.getD 0) 0
  let opening := product.current_opening_stock
  let available := opening + productStockIn
  match savedStock product.id with
  | some savedRemaining =>
    { product := product, opening := opening, stockIn := productStockIn,
      available := available, remaining := some savedRemaining,
      sold := available - savedRemaining }
  | none =>
    { product := product, opening := opening, stockIn := productStockIn,
      available := available, remaining := none, sold := 0 }

/-- `loadData` (`DayClosing.tsx:94-236`): fetches today's data, reduces
expense/income totals (over the return-free fetch results), sources
opening cash from the newest prior final record's
`next_day_opening_cash` (absent ⇒ first-time user), and rebuilds the
stock table from the latest closing's `report_json` if a closing for
today exists. -/
def loadData (store : Store) (today : Nat) : CState :=
  let products := store.products
  let stockInData := (fetchTodayStockIn store today false).map Prod.fst
  let expensesData := (fetchTodayExpenses store today false).map Prod.fst
  let incomeData := (fetchTodayIncome store today false).map Prod.fst
  let closingsData := fetchTodayClosings store today
  let withdrawalsData := fetchTodayWithdrawals store today
  let totalExpenses := expensesData.foldl (fun sum e => sum + e.amount.getD 0) 0
  let totalIncome := incomeData.foldl (fun sum i => sum + i.amount.getD 0) 0
  let latestClosing := closingsData.head?
  let previousDayOpening :=
    (findPrevFinalClosing store today).bind fun c => c.next_day_opening_cash
  let openingCash : ℚ := match previousDayOpening with
    | some v => v
    | none => 0
  let openingCashLocked := previousDayOpening.isSome
  let isFirstTimeUser := !previousDayOpening.isSome
  match latestClosing with
  | some lc =>
    let savedStock := savedStockLookup (lc.report_json.getD [])
    let items := products.map (buildStockItem stockInData savedStock)
    let sales := items.foldl
      (fun sum item =>
        match savedStock item.product.id with
        | some remaining =>
          sum + ((item.available - remaining : ℤ) : ℚ) * item.product.sale_price
        | none => sum)
      0
    { stockItems := items
      todaySales := sales
      todayExpenses := totalExpenses
      todayIncome := totalIncome
      openingCash := openingCash
      openingCashLocked := openingCashLocked
      isFirstTimeUser := isFirstTimeUser
      cashInDrawer := lc.cash_received
      withdrawals := withdrawalsData
      existingClosing := some lc
      isLocked := lc.isFinal }
  | none =>
    let items := products.map (buildStockItem stockInData fun _ => none)
    { stockItems := items
      todaySales := 0
      todayExpenses := totalExpenses
      todayIncome := totalIncome
      openingCash := openingCash
      openingCashLocked := openingCashLocked
      isFirstTimeUser := isFirstTimeUser
      cashInDrawer := none
      withdrawals := withdrawalsData
      existingClosing := none
      isLocked := false }

/-! ## Seeding, draft save, lock -/

/-- `handleSaveFirstTimeOpening` (`DayClosing.tsx:330-348`): a `NaN`
(`none`) or negative amount is rejected with an alert and no change;
otherwise only the in-memory `openingCash` / `openingCashLocked` /
`isFirstTimeUser` fields are set.  No persistence-adapter call is made. -/
def handleSaveFirstTimeOpening (s : CState) (store : Store) (amount : Option ℚ) :
    CState × Store :=
  match amount with
  | none => (s, store)
  | some a =>
    if a < 0 then (s, store)
    else
      ({ s with openingCash := a, openingCashLocked := true, isFirstTimeUser := false },
       store)

/-- The `closingStock` snapshot built by `handleSave`
(`DayClosing.tsx:399-402`): a row for *every* product;
`newOpeningStock = remaining === '' ? available : parseInt(remaining)`. -/
def draftClosingStock (items : List StockItem) : List (Nat × ℤ) :=
  items.map fun item => (item.product.id, item.remaining.getD item.available)

/-- `handleSave` (`DayClosing.tsx:393-448`): rejected without any write
when `!canSave || isLocked`; otherwise writes today's `'partial'` closing
record — updating the existing row if one was loaded, else inserting a
new one and remembering it as `existingClosing`.  Product stock is not
touched. -/
def handleSave (s : CState) (store : Store) (today : Nat) : CState × Store :=
  if !canSave s || s.isLocked then (s, store)
  else
    let closingStock := draftClosingStock s.stockItems
    let totalRevenue := (calculations s).sales
    let cashReceived : ℚ := s.cashInDrawer.getD 0
    match s.existingClosing with
    | some ec =>
      let store' := { store with
        closings := store.closings.map fun c =>
          if c.id = ec.id then
            { c with date_str := today, total_revenue := totalRevenue,
                     cash_received := some cashReceived,
                     total_withdrawals := totalWithdrawalsOf s,
                     closing_type := ClosingType.draft,
                     report_json := some closingStock }
          else c }
      ({ s with todaySales := totalRevenue }, store')
    | none =>
      let row : ClosingRow :=
        { id := store.nextId, date_str := today, total_revenue := totalRevenue,
          cash_received := some cashReceived,
          total_withdrawals := totalWithdrawalsOf s,
          closing_type := ClosingType.draft,
          report_json := some closingStock,
          next_day_opening_cash := none }
      let store' := { store with
        closings := (row :: store.closings)
        nextId := store.nextId + 1 }
      ({ s with todaySales := totalRevenue, existingClosing := some row }, store')

/-- The `closingStock` snapshot built by `handleLock`
(`DayClosing.tsx:473-476`): `newOpeningStock = parseInt(item.remaining)
|| 0` — an empty string parses to `NaN` and falls back to `0`. -/
def lockClosingStock (items : List StockItem) : List (Nat × ℤ) :=
  items.map fun item => (item.product.id, item.remaining.getD 0)

/-- The per-product stock writes of `handleLock`
(`DayClosing.tsx:479-484`): one `update({current_opening_stock})
.eq('id', productId)` per snapshot row, in order. -/
def applyProductUpdates (products : List ProductRow) (closingStock : List (Nat × ℤ)) :
    List ProductRow :=
  closingStock.foldl
    (fun ps item =>
      ps.map fun p =>
        if p.id = item.1 then { p with current_opening_stock := item.2 } else p)
    products

/-- `handleLock` (`DayClosing.tsx:451-522`): rejected silently (no read,
no write, no message) when `!canLock || isLocked`; otherwise updates every
product's `current_opening_stock` from the snapshot, then writes today's
closing record with `closing_type = 'final'` (updating the loaded row or
inserting a fresh one), and sets the in-memory `isLocked` flag.  Note
that, unlike `performDailyClosing`, no fresh guard read of the store is
performed before the writes, and the per-product write results are not
inspected. -/
def handleLock (s : CState) (store : Store) (today : Nat) : CState × Store :=
  if !canLock s || s.isLocked then (s, store)
  else
    let closingStock := lockClosingStock s.stockItems
    let products' := applyProductUpdates store.products closingStock
    let totalRevenue := (calculations s).sales
    let cashReceived : ℚ := s.cashInDrawer.getD 0
    match s.existingClosing with
    | some ec =>
      let store' := { store with
        products := products'
        closings := store.closings.map fun c =>
          if c.id = ec.id then
            { c with date_str := today, total_revenue := totalRevenue,
                     cash_received := some cashReceived,
                     total_withdrawals := totalWithdrawalsOf s,
                     closing_type := ClosingType.final,
                     report_json := some closingStock }
          else c }
      ({ s with isLocked := true }, store')
    | none =>
      let row : ClosingRow :=
        { id := store.nextId, date_str := today, total_revenue := totalRevenue,
          cash_received := some cashReceived,
          total_withdrawals := totalWithdrawalsOf s,
          closing_type := ClosingType.final,
          report_json := some closingStock,
          next_day_opening_cash := none }
      let store' := { store with
        products := products'
        closings := (row :: store.closings)
        nextId := store.nextId + 1 }
      ({ s with isLocked := true, existingClosing := some row }, store')

/-! ## `performDailyClosing` (`src/services/supabase.ts:412-507`) -/

/-- Outcome of `performDailyClosing`: the returned `{success, message}`
pair plus the collected `updateErrors` product ids that the source logs
via `console.error`. -/
structure ClosingResult where
  success : Bool
  message : String
  updateErrors : List Nat
  deriving Repr, DecidableEq

/-- One iteration of the per-product update loop of `performDailyClosing`
(`src/services/supabase.ts:439-448`): a successful write updates the
matching product row; a failed one appends the product id to the
collected `updateErrors`. -/
def performStep (writeOk : Nat → Bool) (acc : List ProductRow × List Nat)
    (item : Nat × ℤ) : List ProductRow × List Nat :=
  if writeOk item.1 then
    (acc.1.map fun p =>
      if p.id = item.1 then { p with current_opening_stock := item.2 } else p,
     acc.2)
  else (acc.1, acc.2 ++ [item.1])

/-- `performDailyClosing` (`src/services/supabase.ts:412-507`).
`writeOk` models whether the store accepts the per-product
`current_opening_stock` update (the error channel of each call).  The
guard read `isFinalClosingDoneToday` runs before any write; on a final
closing the product updates run one by one, failures are pushed onto
`updateErrors` and logged — and then the closing record is inserted and
the call reports success regardless of `updateErrors`. -/
def performDailyClosing (store : Store) (today : Nat) (writeOk : Nat → Bool)
    (closingData : List (Nat × ℤ)) (totalRevenue : ℚ) (cashReceived : ℚ)
    (totalWithdrawals : ℚ) (closingType : ClosingType) : Store × ClosingResult :=
  if isFinalClosingDoneToday store today then
    (store,
     { success := false
       message := "Final closing has already been done for today. No more closings allowed."
       updateErrors := [] })
  else
    let updated :=
      match closingType with
      | ClosingType.final => closingData.foldl (performStep writeOk) (store.products, [])
      | ClosingType.draft => (store.products, [])
    let stockReport := closingData.filter fun item =>
      decide (item.2 > 0) || decide (closingType = ClosingType.final)
    let row : ClosingRow :=
      { id := store.nextId, date_str := today, total_revenue := totalRevenue,
        cash_received := some cashReceived, total_withdrawals := totalWithdrawals,
        closing_type := closingType,
        report_json := if stockReport.length > 0 then some closingData else none,
        next_day_opening_cash := none }
    ({ store with
        products := updated.1
        closings := (row :: store.closings)
        nextId := store.nextId + 1 },
     { success := true
       message := "closing completed successfully."
       updateErrors := updated.2 })

/-! ## Spec-side comparison definitions (§4.1 net-amount rule) -/

/-- Modelled from the spec's words (§4.1/§8), for comparison with the
code: "summation of signed amounts across original + reversal movements
yields the correct net" — the net stock received for a product on a date
is the signed sum over *all* of its stock movements, reversals included. -/
def specNetStockReceived (store : Store) (today : Nat) (productId : Nat) : ℤ :=
  (store.transactions.filter fun t =>
      decide (t.type = TxnType.stockIn) && decide (t.date_str = today) &&
        decide (t.product_id = some productId)).foldl
    (fun sum t => sum + t.quantity.getD 0) 0

/-- Modelled from the spec's words (§4.1), for comparison with the code:
the net expense total for a date is the signed sum over all expense
movements, reversals included. -/
def specNetExpenses (store : Store) (today : Nat) : ℚ :=
  (store.transactions.filter fun t =>
      decide (t.type = TxnType.expense) && decide (t.date_str = today)).foldl
    (fun sum t => sum + t.amount.getD 0) 0

/-! ## Helper lemmas about the per-product write loop -/

/-- Pointwise form of `applyProductUpdates`: the effect of the whole write
loop on a single product row. -/
def applyUpdatesOne (closingStock : List (Nat × ℤ)) (p : ProductRow) : ProductRow :=
  closingStock.foldl
    (fun q item =>
      if q.id = item.1 then { q with current_opening_stock := item.2 } else q)
    p

theorem applyUpdatesOne_cons (hd : Nat × ℤ) (tl : List (Nat × ℤ)) (p : ProductRow) :
    applyUpdatesOne (hd :: tl) p =
      applyUpdatesOne tl
        (if p.id = hd.1 then { p with current_opening_stock := hd.2 } else p) := rfl

theorem applyProductUpdates_eq_map (products : List ProductRow)
    (closingStock : List (Nat × ℤ)) :
    applyProductUpdates products closingStock =
      products.map (applyUpdatesOne closingStock) := by
  induction closingStock generalizing products with
  | nil =>
    have h0 : applyUpdatesOne [] = fun p : ProductRow => p := rfl
    simp [applyProductUpdates, h0]
  | cons hd tl ih =>
    have h1 : applyProductUpdates products (hd :: tl) =
        applyProductUpdates
          (products.map fun p =>
            if p.id = hd.1 then { p with current_opening_stock := hd.2 } else p)
          tl := rfl
    rw [h1, ih, List.map_map]
    rfl

theorem applyUpdatesOne_preserves_id (closingStock : List (Nat × ℤ)) (p : ProductRow) :
    (applyUpdatesOne closingStock p).id = p.id := by
  induction closingStock generalizing p with
  | nil => rfl
  | cons hd tl ih =>
    rw [applyUpdatesOne_cons]
    rw [ih]
    by_cases h : p.id = hd.1 <;> simp [h]

theorem applyUpdatesOne_not_mem (closingStock : List (Nat × ℤ)) (p : ProductRow)
    (h : p.id ∉ closingStock.map Prod.fst) :
    applyUpdatesOne closingStock p = p := by
  induction closingStock generalizing p with
  | nil => rfl
  | cons hd tl ih =>
    simp only [List.map_cons, List.mem_cons, not_or] at h
    rw [applyUpdatesOne_cons, if_neg h.1]
    exact ih p h.2

theorem applyUpdatesOne_value (closingStock : List (Nat × ℤ)) (p : ProductRow)
    (k : Nat) (v : ℤ) (hmem : (k, v) ∈ closingStock)
    (hnodup : (closingStock.map Prod.fst).Nodup) (hid : p.id = k) :
    (applyUpdatesOne closingStock p).current_opening_stock = v := by
  induction closingStock generalizing p with
  | nil => cases hmem
  | cons hd tl ih =>
    simp only [List.map_cons, List.nodup_cons] at hnodup
    rcases List.mem_cons.mp hmem with heq | htl
    · cases heq.symm
      rw [applyUpdatesOne_cons, if_pos hid]
      have hout : k ∉ tl.map Prod.fst := by simpa using hnodup.1
      rw [applyUpdatesOne_not_mem tl _ (by simpa [hid] using hout)]
    · have hk : k ∈ tl.map Prod.fst := by
        simpa using List.mem_map_of_mem Prod.fst htl
      have hne : p.id ≠ hd.1 := by
        rw [hid]
        intro hh
        exact hnodup.1 (hh ▸ hk)
      rw [applyUpdatesOne_cons, if_neg hne]
      exact ih p htl hnodup.2 hid

/-- Error accumulation of the `performDailyClosing` write loop: the second
component collects exactly the product ids whose write failed, appended to
the accumulator. -/
theorem performStep_foldl_errors (writeOk : Nat → Bool) (closingData : List (Nat × ℤ))
    (ps : List ProductRow) (errs : List Nat) :
    (closingData.foldl (performStep writeOk) (ps, errs)).2 =
      errs ++ (closingData.filter fun item => !writeOk item.1).map Prod.fst := by
  induction closingData generalizing ps errs with
  | nil => simp
  | cons hd tl ih =>
    by_cases h : writeOk hd.1
    · simp only [List.foldl_cons, performStep, if_pos h, List.filter_cons]
      rw [ih]
      simp [h]
    · simp only [List.foldl_cons, performStep, if_neg h, List.filter_cons]
      rw [ih]
      simp [h]

/-! ## Claim theorems -/

/-- The `isMatch` flag of the calculator is the strict test
`|difference| < 1`. -/
theorem calculations_isMatch_def (s : CState) :
    (calculations s).isMatch = decide (|(calculations s).difference| < 1) := rfl

/-- C3: for all values of the five inputs, the cash reconciliation
calculator returns `expectedCash = openingCash + totalRevenue +
totalIncome - totalExpenses - totalWithdrawals` and `difference =
cashCounted - expectedCash`; the instance `1000/500/200/150/100` gives
`1450`, and `expectedCash` is linear in each of its five inputs. -/
theorem c3_expected_cash_formula_linear :
    (∀ s : CState,
      (calculations s).expectedCash =
        expectedCashCalc s.openingCash (salesFromStock s.stockItems) s.todayIncome
          s.todayExpenses (totalWithdrawalsOf s) ∧
      (calculations s).difference =
        (calculations s).actualCash - (calculations s).expectedCash) ∧
    expectedCashCalc 1000 500 200 150 100 = 1450 ∧
    ∀ o r i e w d : ℚ,
      expectedCashCalc (o + d) r i e w = expectedCashCalc o r i e w + d ∧
      expectedCashCalc o (r + d) i e w = expectedCashCalc o r i e w + d ∧
      expectedCashCalc o r (i + d) e w = expectedCashCalc o r i e w + d ∧
      expectedCashCalc o r i (e + d) w = expectedCashCalc o r i e w - d ∧
      expectedCashCalc o r i e (w + d) = expectedCashCalc o r i e w - d := by
  refine ⟨fun s => ⟨rfl, rfl⟩, by norm_num [expectedCashCalc], fun o r i e w d => ?_⟩
  simp only [expectedCashCalc]
  refine ⟨by ring, by ring, by ring, by ring, by ring⟩

/-- A state whose `expectedCash` is `0` while `cashCounted` is `1`:
the drawer differs from the expectation by exactly one currency unit. -/
def c4State : CState :=
  { stockItems := [], todaySales := 0, todayExpenses := 0, todayIncome := 0,
    openingCash := 0, openingCashLocked := true, isFirstTimeUser := false,
    cashInDrawer := some 1, withdrawals := [], existingClosing := none,
    isLocked := false }

/-- C4 counterexample: at `cashCounted = expectedCash + 1` the code does
*not* classify MATCH — `Math.abs(difference) < 1` is strict, so a
difference of exactly one unit is reported as SURPLUS. -/
theorem c4_counterexample_plus_one_not_match :
    (calculations c4State).expectedCash = 0 ∧
    (calculations c4State).actualCash = 1 ∧
    (calculations c4State).difference = 1 ∧
    (calculations c4State).isMatch = false ∧
    classifyDelta (calculations c4State).difference = CashClass.surplus 1 := by
  refine ⟨?_, ?_, ?_, ?_, ?_⟩ <;>
    norm_num [calculations, classifyDelta, c4State, salesFromStock,
      totalWithdrawalsOf, expectedCashCalc]

/-- C4 (amended): the delta classification is MATCH exactly when
`|difference| < 1` strictly (so `cashCounted = expectedCash ± 1` is not a
MATCH); a difference `≤ -1` is SHORTAGE with `loss = |difference|`, and a
difference `≥ +1` is SURPLUS with `extra = difference`. -/
theorem c4_amended_strict_tolerance (s : CState) :
    ((calculations s).isMatch = true ↔ |(calculations s).difference| < 1) ∧
    (|(calculations s).difference| < 1 →
      classifyDelta (calculations s).difference = CashClass.matched) ∧
    ((calculations s).difference ≤ -1 →
      classifyDelta (calculations s).difference =
        CashClass.shortage |(calculations s).difference|) ∧
    (1 ≤ (calculations s).difference →
      classifyDelta (calculations s).difference =
        CashClass.surplus (calculations s).difference) := by
  set d := (calculations s).difference with hd
  refine ⟨?_, ?_, ?_, ?_⟩
  · rw [calculations_isMatch_def, ← hd]
    exact decide_eq_true_iff
  · intro h
    simp [classifyDelta, h]
  · intro h
    have h1 : ¬ |d| < 1 := by
      intro hcon
      rw [abs_of_nonpos (le_trans h (by norm_num))] at hcon
      linarith
    have h2 : d < 0 := lt_of_le_of_lt h (by norm_num)
    simp [classifyDelta, h1, h2]
  · intro h
    have h1 : ¬ |d| < 1 := by
      intro hcon
      rw [abs_of_nonneg (le_trans (by norm_num) h)] at hcon
      linarith
    have h2 : ¬ d < 0 := by linarith
    simp [classifyDelta, h1, h2]

/-- A state with a difference of one half (classified MATCH). -/
def c4HalfState : CState := { c4State with cashInDrawer := some (1 / 2) }

/-- A state with a difference of `+2` (classified SURPLUS). -/
def c4SurState : CState := { c4State with cashInDrawer := some 2 }

/-- A state with a difference of `-2` (classified SHORTAGE). -/
def c4ShortState : CState :=
  { c4State with openingCash := 2, cashInDrawer := some 0 }

/-- Witness for `c4_amended_strict_tolerance` at concrete differences
`1/2`, `-2` and `+2`. -/
theorem c4_amended_strict_tolerance_witness :
    (calculations c4HalfState).isMatch = true ∧
    classifyDelta (calculations c4ShortState).difference =
      CashClass.shortage |(calculations c4ShortState).difference| ∧
    classifyDelta (calculations c4SurState).difference =
      CashClass.surplus (calculations c4SurState).difference := by
  refine ⟨((c4_amended_strict_tolerance c4HalfState).1).mpr ?_,
    (c4_amended_strict_tolerance c4ShortState).2.2.1 ?_,
    (c4_amended_strict_tolerance c4SurState).2.2.2 ?_⟩ <;>
    norm_num [calculations, c4HalfState, c4ShortState, c4SurState, c4State,
      salesFromStock, totalWithdrawalsOf, expectedCashCalc, abs_lt]

/-- C6: for every input value passed to the remaining-count update, the
stored `remaining` is `min (max 0 value) available` — hence within
`[0, available]` when `available ≥ 0` — and `sold = available - remaining`
exactly for the stored value. -/
theorem c6_remaining_clamped (s : CState) (productId : Nat) (v : ℤ)
    (item' : StockItem) (hnl : s.isLocked = false)
    (havail : ∀ item ∈ s.stockItems, 0 ≤ item.available)
    (hmem : item' ∈ (updateRemaining s productId (some v)).stockItems)
    (hid : item'.product.id = productId) :
    item'.remaining = some (min (max 0 v) item'.available) ∧
      ∀ r : ℤ, item'.remaining = some r →
        0 ≤ r ∧ r ≤ item'.available ∧ item'.sold = item'.available - r := by
  simp only [updateRemaining, hnl, Bool.false_eq_true, if_false, List.mem_map] at hmem
  obtain ⟨item, hitem, rfl⟩ := hmem
  by_cases h : item.product.id = productId
  · have h0 : (0 : ℤ) ≤ item.available := havail item hitem
    simp only [updateRemainingItem, if_pos h]
    refine ⟨by simp, ?_⟩
    intro r hr
    have hreq : min (max 0 v) item.available = r := by simpa using hr
    subst hreq
    refine ⟨le_min (le_max_left 0 v) h0, min_le_right _ _, by simp⟩
  · rw [updateRemainingItem, if_neg h] at hid
    exact absurd hid h

/-- Fixture state for the `c6` witness: one product, five available. -/
def c6State : CState :=
  { stockItems := [⟨⟨1, 10, 5⟩, 5, 0, 5, none, 0⟩], todaySales := 0,
    todayExpenses := 0, todayIncome := 0, openingCash := 0,
    openingCashLocked := true, isFirstTimeUser := false, cashInDrawer := none,
    withdrawals := [], existingClosing := none, isLocked := false }

/-- The stock item produced by entering `9` against five available:
capped to `5`, zero sold. -/
def c6ItemUpdated : StockItem := ⟨⟨1, 10, 5⟩, 5, 0, 5, some 5, 0⟩

/-- Witness for `c6_remaining_clamped`: entering `9` against five
available stores `5` and zero sold. -/
theorem c6_remaining_clamped_witness :
    c6ItemUpdated.remaining = some (min (max 0 9) c6ItemUpdated.available) ∧
    (0 : ℤ) ≤ 5 ∧ (5 : ℤ) ≤ c6ItemUpdated.available ∧
      c6ItemUpdated.sold = c6ItemUpdated.available - 5 := by
  have h := c6_remaining_clamped c6State 1 9 c6ItemUpdated rfl
    (by simp [c6State]) (by simp [c6State, updateRemaining, updateRemainingItem,
      c6ItemUpdated]) rfl
  exact ⟨h.1, h.2 5 (by simp [c6ItemUpdated])⟩

/-- C7: the lock gate opens only when every product has a non-null
`remaining` entry, `cashCounted` is set, and opening cash is available
(`openingCashLocked || !isFirstTimeUser`); if any product lacks a
`remaining` entry the gate is closed and the lock attempt returns with the
component state and the store completely unchanged — no writes happen. -/
theorem c7_lock_preconditions (s : CState) (store : Store) (today : Nat) :
    ((∃ item ∈ s.stockItems, item.remaining = none) →
      canLock s = false ∧ handleLock s store today = (s, store)) ∧
    (canLock s = true →
      (∀ item ∈ s.stockItems, item.remaining.isSome = true) ∧
        s.cashInDrawer.isSome = true ∧
        (s.openingCashLocked = true ∨ s.isFirstTimeUser = false)) := by
  constructor
  · rintro ⟨item, hmem, hnone⟩
    have hfalse : canLock s = false := by
      cases hcl : canLock s with
      | false => rfl
      | true =>
        have hcl' := hcl
        simp only [canLock, Bool.and_eq_true] at hcl'
        have := List.all_eq_true.mp hcl'.1.1 item hmem
        rw [hnone] at this
        simp at this
    exact ⟨hfalse, by simp [handleLock, hfalse]⟩
  · intro htrue
    simp only [canLock, Bool.and_eq_true] at htrue
    obtain ⟨⟨h1, h2⟩, h3⟩ := htrue
    refine ⟨fun item hmem => List.all_eq_true.mp h1 item hmem, h2, ?_⟩
    simp only [Bool.or_eq_true] at h3
    rcases h3 with h | h
    · exact Or.inl h
    · exact Or.inr (by simpa using h)

/-- Fixture for the `c7` witness: cash entered and opening cash locked,
but the (single) product's remaining count missing. -/
def c7StateMissing : CState :=
  { stockItems := [⟨⟨1, 10, 5⟩, 5, 0, 5, none, 0⟩], todaySales := 0,
    todayExpenses := 0, todayIncome := 0, openingCash := 500,
    openingCashLocked := true, isFirstTimeUser := false,
    cashInDrawer := some 700, withdrawals := [], existingClosing := none,
    isLocked := false }

/-- Fixture for the `c7` witness: all preconditions satisfied. -/
def c7StateFull : CState :=
  { c7StateMissing with stockItems := [⟨⟨1, 10, 5⟩, 5, 0, 5, some 2, 3⟩] }

/-- Store fixture for the `c7` witness. -/
def c7Store : Store :=
  { products := [⟨1, 10, 5⟩], transactions := [], closings := [],
    withdrawals := [], nextId := 1 }

/-- Witness for `c7_lock_preconditions`: with the remaining count of the
only product missing, the gate is closed and `handleLock` is an identity;
with all preconditions met, the gate components hold. -/
theorem c7_lock_preconditions_witness :
    (canLock c7StateMissing = false ∧
      handleLock c7StateMissing c7Store 1 = (c7StateMissing, c7Store)) ∧
    c7StateFull.cashInDrawer.isSome = true ∧
    (c7StateFull.openingCashLocked = true ∨ c7StateFull.isFirstTimeUser = false) := by
  refine ⟨(c7_lock_preconditions c7StateMissing c7Store 1).1
    ⟨⟨⟨1, 10, 5⟩, 5, 0, 5, none, 0⟩, by simp [c7StateMissing], rfl⟩, ?_, ?_⟩
  · exact ((c7_lock_preconditions c7StateFull c7Store 1).2 (by decide)).2.1
  · exact ((c7_lock_preconditions c7StateFull c7Store 1).2 (by decide)).2.2

/-- C2: after a successful lock, every product row in the store whose id
matches a stock item carries `current_opening_stock` equal to the
`remaining` count that was entered for that item at the moment of
locking. -/
theorem c2_lock_rolls_over_opening_stock (s : CState) (store : Store) (today : Nat)
    (item : StockItem) (r : ℤ) (p : ProductRow)
    (hcan : canLock s = true) (hnl : s.isLocked = false)
    (hnodup : (s.stockItems.map fun i => i.product.id).Nodup)
    (hitem : item ∈ s.stockItems) (hr : item.remaining = some r)
    (hp : p ∈ (handleLock s store today).2.products)
    (hid : p.id = item.product.id) :
    p.current_opening_stock = r := by
  have hprod : (handleLock s store today).2.products =
      applyProductUpdates store.products (lockClosingStock s.stockItems) := by
    cases hec : s.existingClosing <;> simp [handleLock, hcan, hnl, hec]
  rw [hprod, applyProductUpdates_eq_map] at hp
  obtain ⟨q, hq, rfl⟩ := List.mem_map.mp hp
  have hqid : q.id = item.product.id := by
    rw [← applyUpdatesOne_preserves_id (lockClosingStock s.stockItems) q]
    exact hid
  refine applyUpdatesOne_value _ _ item.product.id r ?_ ?_ hqid
  · simp only [lockClosingStock, List.mem_map]
    exact ⟨item, hitem, by rw [hr]; rfl⟩
  · simpa [lockClosingStock, List.map_map, Function.comp] using hnodup

/-- Fixture state for the `c2` witness: one product with five available,
`remaining = 2` entered, all lock preconditions met. -/
def c2State : CState :=
  { stockItems := [⟨⟨1, 10, 5⟩, 5, 0, 5, some 2, 3⟩], todaySales := 0,
    todayExpenses := 0, todayIncome := 0, openingCash := 500,
    openingCashLocked := true, isFirstTimeUser := false,
    cashInDrawer := some 700, withdrawals := [], existingClosing := none,
    isLocked := false }

/-- Store fixture for the `c2` witness. -/
def c2Store : Store :=
  { products := [⟨1, 10, 5⟩], transactions := [], closings := [],
    withdrawals := [], nextId := 1 }

/-- Witness for `c2_lock_rolls_over_opening_stock`: locking with
`remaining = 2` leaves the product row `⟨1, 10, 2⟩` in the store, whose
opening stock is the locked remaining count. -/
theorem c2_lock_rolls_over_opening_stock_witness :
    ProductRow.mk 1 10 2 ∈ (handleLock c2State c2Store 1).2.products ∧
    (ProductRow.mk 1 10 2).current_opening_stock = 2 := by
  have hmem : ProductRow.mk 1 10 2 ∈ (handleLock c2State c2Store 1).2.products := by
    simp [handleLock, c2State, c2Store, canLock, lockClosingStock,
      applyProductUpdates, calculations, salesFromStock, totalWithdrawalsOf,
      expectedCashCalc, applyUpdatesOne]
  refine ⟨hmem, ?_⟩
  exact c2_lock_rolls_over_opening_stock c2State c2Store 1
    ⟨⟨1, 10, 5⟩, 5, 0, 5, some 2, 3⟩ 2 (ProductRow.mk 1 10 2)
    (by decide) rfl (by simp [c2State]) (by simp [c2State]) rfl hmem rfl

/-- The cash-received input change handler (`DayClosing.tsx:799-806`):
a plain state update of `cashInDrawer`. -/
def setCashInDrawer (s : CState) (value : Option ℚ) : CState :=
  { s with cashInDrawer := value }

/-- C9 (amended): in memory, a product whose remaining count has not been
entered contributes zero to the revenue total and keeps the lock gate
closed. -/
theorem c9_amended_unfilled_blocks_gate (s : CState) (pre post : List StockItem)
    (item : StockItem) (hsplit : s.stockItems = pre ++ item :: post)
    (hnone : item.remaining = none) :
    canLock s = false ∧ salesFromStock s.stockItems = salesFromStock (pre ++ post) := by
  constructor
  · simp [canLock, hsplit, hnone]
  · simp only [salesFromStock, hsplit, List.foldl_append, List.foldl_cons, hnone]

/-- Un-entered stock item for the `c9` witness. -/
def c9ItemNone : StockItem := ⟨⟨1, 10, 5⟩, 5, 0, 5, none, 0⟩

/-- Entered stock item for the `c9` witness. -/
def c9ItemSome : StockItem := ⟨⟨2, 4, 3⟩, 3, 0, 3, some 1, 2⟩

/-- State fixture for the `c9` witness. -/
def c9WitState : CState :=
  { stockItems := [c9ItemNone, c9ItemSome], todaySales := 0, todayExpenses := 0,
    todayIncome := 0, openingCash := 500, openingCashLocked := true,
    isFirstTimeUser := false, cashInDrawer := some 100, withdrawals := [],
    existingClosing := none, isLocked := false }

/-- Witness for `c9_amended_unfilled_blocks_gate` at a concrete state. -/
theorem c9_amended_unfilled_blocks_gate_witness :
    canLock c9WitState = false ∧
    salesFromStock c9WitState.stockItems = salesFromStock ([] ++ [c9ItemSome]) :=
  c9_amended_unfilled_blocks_gate c9WitState [] [c9ItemSome] c9ItemNone rfl rfl

/-- A prior-day final closing that hands over `500` opening cash. -/
def c9PrevFinal : ClosingRow :=
  { id := 100, date_str := 0, total_revenue := 0, cash_received := some 0,
    total_withdrawals := 0, closing_type := ClosingType.final,
    report_json := none, next_day_opening_cash := some 500 }

/-- Store fixture for the `c9` counterexample: two products, a prior-day
final closing with opening-cash handoff, nothing yet for today. -/
def c9Store : Store :=
  { products := [⟨1, 10, 5⟩, ⟨2, 4, 3⟩], transactions := [],
    closings := [c9PrevFinal], withdrawals := [], nextId := 200 }

/-- The freshly loaded day. -/
def c9s0 : CState := loadData c9Store 1

/-- Remaining count entered for product 2 only; product 1 left blank. -/
def c9s1 : CState := updateRemaining c9s0 2 (some 1)

/-- The state after saving a draft and reloading the day from the store. -/
def c9s2 : CState := loadData (handleSave c9s1 c9Store 1).2 1

/-- C9 counterexample: with product 1 un-entered the gate is closed, but
`handleSave` serializes the un-entered product with `newOpeningStock =
available`, so after reloading the persisted draft the product carries
`remaining = available` and the ready-to-lock gate is open. -/
theorem c9_counterexample_draft_reload_opens_gate :
    c9s1.stockItems.map (fun item => (item.product.id, item.remaining)) =
      [(1, none), (2, some 1)] ∧
    canLock c9s1 = false ∧
    canLock c9s2 = true ∧
    c9s2.stockItems.map (fun item => (item.product.id, item.remaining)) =
      [(1, some 5), (2, some 1)] := by
  refine ⟨?_, ?_, ?_, ?_⟩ <;> decide

/-- A prior-day final closing handing over opening cash (c1 fixture). -/
def c1PrevFinal : ClosingRow :=
  { id := 3, date_str := 0, total_revenue := 0, cash_received := some 0,
    total_withdrawals := 0, closing_type := ClosingType.final,
    report_json := none, next_day_opening_cash := some 500 }

/-- The store at the time the session loaded: no closing for today. -/
def c1StoreBefore : Store :=
  { products := [⟨1, 10, 5⟩], transactions := [], closings := [c1PrevFinal],
    withdrawals := [], nextId := 7 }

/-- A final closing for today written by another session after the load. -/
def c1OtherFinal : ClosingRow :=
  { id := 50, date_str := 1, total_revenue := 0, cash_received := some 0,
    total_withdrawals := 0, closing_type := ClosingType.final,
    report_json := none, next_day_opening_cash := none }

/-- The store at the time the lock button is pressed: today already has a
final closing. -/
def c1StoreAtLock : Store :=
  { c1StoreBefore with closings := (c1OtherFinal :: c1StoreBefore.closings) }

/-- The session's state: loaded before the other session's final closing
existed, with the remaining count and the drawer cash entered. -/
def c1State : CState :=
  setCashInDrawer (updateRemaining (loadData c1StoreBefore 1) 1 (some 2)) (some 700)

/-- Number of final closing records for a date. -/
def countFinalClosings (store : Store) (d : Nat) : Nat :=
  (store.closings.filter fun c => decide (c.date_str = d) && c.isFinal).length

/-- C1 counterexample: the store already holds a final record for today,
yet `handleLock` — whose state was loaded before that record appeared —
performs no fresh guard read, reports no error, sets `isLocked`, and
inserts a second final record for the date. -/
theorem c1_counterexample_second_final_record :
    countFinalClosings c1StoreAtLock 1 = 1 ∧
    canLock c1State = true ∧
    c1State.isLocked = false ∧
    (handleLock c1State c1StoreAtLock 1).1.isLocked = true ∧
    countFinalClosings (handleLock c1State c1StoreAtLock 1).2 1 = 2 := by
  refine ⟨?_, ?_, ?_, ?_, ?_⟩ <;> decide

/-- C1 (amended): the fresh-guard-read rejection exists only in the
service-layer `performDailyClosing`: when the store already holds (exactly
one) final record for today, it rejects the attempt with the recoverable
"already been done" message and performs no writes.  The UI lock path
`handleLock` rejects a re-lock only through the in-memory `isLocked` flag,
silently and without touching the store. -/
theorem c1_amended_guard_read_only_in_service (store : Store) (today : Nat)
    (writeOk : Nat → Bool) (closingData : List (Nat × ℤ))
    (totalRevenue cashReceived totalWithdrawals : ℚ) (closingType : ClosingType)
    (hguard : isFinalClosingDoneToday store today = true) :
    performDailyClosing store today writeOk closingData totalRevenue cashReceived
        totalWithdrawals closingType =
      (store,
       { success := false
         message := "Final closing has already been done for today. No more closings allowed."
         updateErrors := [] }) ∧
    ∀ s : CState, s.isLocked = true → handleLock s store today = (s, store) := by
  refine ⟨by simp [performDailyClosing, hguard], fun s hl => by simp [handleLock, hl]⟩

/-- A locked component state for the `c1` witness. -/
def c1StateLocked : CState :=
  { stockItems := [], todaySales := 0, todayExpenses := 0, todayIncome := 0,
    openingCash := 500, openingCashLocked := true, isFirstTimeUser := false,
    cashInDrawer := some 700, withdrawals := [], existingClosing := some c1OtherFinal,
    isLocked := true }

/-- Witness for `c1_amended_guard_read_only_in_service` on the concrete
store that already has a final record for today. -/
theorem c1_amended_guard_read_only_in_service_witness :
    performDailyClosing c1StoreAtLock 1 (fun _ => true) [] 0 0 0 ClosingType.final =
      (c1StoreAtLock,
       { success := false
         message := "Final closing has already been done for today. No more closings allowed."
         updateErrors := [] }) ∧
    handleLock c1StateLocked c1StoreAtLock 1 = (c1StateLocked, c1StoreAtLock) := by
  have h := c1_amended_guard_read_only_in_service c1StoreAtLock 1 (fun _ => true) []
    0 0 0 ClosingType.final (by decide)
  exact ⟨h.1, h.2 c1StateLocked rfl⟩

/-- Store fixture for the `c8` counterexample: two products, no closing
yet for today. -/
def c8Store : Store :=
  { products := [⟨1, 10, 0⟩, ⟨2, 10, 0⟩], transactions := [], closings := [],
    withdrawals := [], nextId := 1 }

/-- A final closing attempt in which the write for product 2 fails. -/
def c8Run : Store × ClosingResult :=
  performDailyClosing c8Store 1 (fun productId => decide (productId = 1))
    [(1, 5), (2, 7)] 50 600 0 ClosingType.final

/-- C8 counterexample: with the stock write for product 2 failing, the
failure is collected (`updateErrors = [2]`) — but the lock still reports
`success = true` and the final record is written, so the lock is *not*
considered unsuccessful. -/
theorem c8_counterexample_partial_failure_reports_success :
    c8Run.2.success = true ∧ c8Run.2.updateErrors = [2] ∧
    countFinalClosings c8Run.1 1 = 1 := by
  refine ⟨?_, ?_, ?_⟩ <;> decide

/-- C8 (amended): when some per-product stock writes fail during a final
`performDailyClosing`, the failing product ids are collected (and logged)
in order — but the closing record is still written as `final` and the call
reports success; the lock is not considered unsuccessful.  (`handleLock`
in the component does not even inspect the per-product write results.) -/
theorem c8_amended_failures_collected_but_success (store : Store) (today : Nat)
    (writeOk : Nat → Bool) (closingData : List (Nat × ℤ))
    (totalRevenue cashReceived totalWithdrawals : ℚ)
    (hguard : isFinalClosingDoneToday store today = false) :
    (performDailyClosing store today writeOk closingData totalRevenue cashReceived
        totalWithdrawals ClosingType.final).2.updateErrors =
      (closingData.filter fun item => !writeOk item.1).map Prod.fst ∧
    (performDailyClosing store today writeOk closingData totalRevenue cashReceived
        totalWithdrawals ClosingType.final).2.success = true ∧
    ∃ c ∈ (performDailyClosing store today writeOk closingData totalRevenue
        cashReceived totalWithdrawals ClosingType.final).1.closings,
      c.date_str = today ∧ c.isFinal = true := by
  simp only [performDailyClosing, hguard, Bool.false_eq_true, if_false]
  refine ⟨?_, trivial, ?_⟩
  · simpa using performStep_foldl_errors writeOk closingData store.products []
  · exact ⟨_, List.mem_cons_self _ _, rfl, rfl⟩

/-- Store fixture for the `c8` witness. -/
def c8WStore : Store :=
  { products := [⟨3, 10, 0⟩], transactions := [], closings := [],
    withdrawals := [], nextId := 5 }

/-- Witness for `c8_amended_failures_collected_but_success`: the only
write fails, the id is collected, and the call still reports success. -/
theorem c8_amended_failures_collected_but_success_witness :
    (performDailyClosing c8WStore 2 (fun _ => false) [(3, 4)] 0 0 0
        ClosingType.final).2.updateErrors = [3] ∧
    (performDailyClosing c8WStore 2 (fun _ => false) [(3, 4)] 0 0 0
        ClosingType.final).2.success = true := by
  have h := c8_amended_failures_collected_but_success c8WStore 2 (fun _ => false)
    [(3, 4)] 0 0 0 (by decide)
  exact ⟨h.1.trans (by decide), h.2.1⟩

/-- C10: seeding the first-time opening cash with a valid amount performs
no store write — only `openingCash`, `openingCashLocked` and
`isFirstTimeUser` change in memory — and as long as no prior final record
hands over an opening cash, reloading the same store returns the day to
the unseeded first-time state. -/
theorem c10_first_time_opening_cash_in_memory_only (s : CState) (store : Store)
    (today : Nat) (a : ℚ) (ha : 0 ≤ a)
    (hfresh : (findPrevFinalClosing store today).bind
        (fun c => c.next_day_opening_cash) = none) :
    (handleSaveFirstTimeOpening s store (some a)).2 = store ∧
    (handleSaveFirstTimeOpening s store (some a)).1 =
      { s with openingCash := a, openingCashLocked := true,
               isFirstTimeUser := false } ∧
    (loadData store today).isFirstTimeUser = true ∧
    (loadData store today).openingCashLocked = false ∧
    (loadData store today).openingCash = 0 := by
  have hnot : ¬ a < 0 := not_lt.mpr ha
  refine ⟨by simp [handleSaveFirstTimeOpening, hnot],
    by simp [handleSaveFirstTimeOpening, hnot], ?_, ?_, ?_⟩ <;>
  · cases hlc : (fetchTodayClosings store today).head? with
    | none => simp [loadData, hfresh, hlc]
    | some lc => simp [loadData, hfresh, hlc]

/-- A fresh first-time component state (c10 fixture). -/
def c10State : CState :=
  { stockItems := [], todaySales := 0, todayExpenses := 0, todayIncome := 0,
    openingCash := 0, openingCashLocked := false, isFirstTimeUser := true,
    cashInDrawer := none, withdrawals := [], existingClosing := none,
    isLocked := false }

/-- A store with no closing records at all (c10 fixture). -/
def c10Store : Store :=
  { products := [⟨1, 10, 5⟩], transactions := [], closings := [],
    withdrawals := [], nextId := 1 }

/-- Witness for `c10_first_time_opening_cash_in_memory_only` at amount
`300` over a store with no records. -/
theorem c10_first_time_opening_cash_in_memory_only_witness :
    (handleSaveFirstTimeOpening c10State c10Store (some 300)).2 = c10Store ∧
    (handleSaveFirstTimeOpening c10State c10Store (some 300)).1 =
      { c10State with openingCash := 300, openingCashLocked := true,
                      isFirstTimeUser := false } ∧
    (loadData c10Store 1).isFirstTimeUser = true ∧
    (loadData c10Store 1).openingCashLocked = false ∧
    (loadData c10Store 1).openingCash = 0 :=
  c10_first_time_opening_cash_in_memory_only c10State c10Store 1 300
    (by norm_num) rfl

/-- A stock-in of quantity `10` for product 1 (c5 fixture). -/
def c5T1 : TxnRow :=
  { id := 1, type := TxnType.stockIn, product_id := some 1, quantity := some 10,
    amount := none, is_return := false, return_of := none, date_str := 1 }

/-- The reversal of `c5T1`: `quantity = -10`, `is_return = true`,
`return_of = 1` (c5 fixture, shaped like `returnTransaction` output). -/
def c5T2 : TxnRow :=
  { id := 2, type := TxnType.stockIn, product_id := some 1,
    quantity := some (-10), amount := none, is_return := true,
    return_of := some 1, date_str := 1 }

/-- An expense of `100` (c5 fixture). -/
def c5E1 : TxnRow :=
  { id := 3, type := TxnType.expense, product_id := none, quantity := none,
    amount := some 100, is_return := false, return_of := none, date_str := 1 }

/-- The reversal of `c5E1`: `amount = -100` (c5 fixture). -/
def c5E2 : TxnRow :=
  { id := 4, type := TxnType.expense, product_id := none, quantity := none,
    amount := some (-100), is_return := true, return_of := some 3, date_str := 1 }

/-- Store fixture for c5: one product, a reversed stock-in and a reversed
expense for today. -/
def c5Store : Store :=
  { products := [⟨1, 10, 0⟩], transactions := [c5T1, c5T2, c5E1, c5E2],
    closings := [], withdrawals := [], nextId := 10 }

/-- C5: evaluation of the reconciliation load at the failing input.  The
spec-side signed sums over original + reversal movements net to zero, but
the load — which fetches with `includeReturns = false` — reports the
reversed stock-in as `received = 10` and the reversed expense as `100`;
with the default fetch the original's `has_been_returned` flag can never
be `true`, while a fetch that includes returns both nets correctly and
flags the original. -/
theorem c5_code_bug_reversals_excluded_from_load :
    (loadData c5Store 1).stockItems.map (fun item => item.stockIn) = [10] ∧
    specNetStockReceived c5Store 1 1 = 0 ∧
    (loadData c5Store 1).todayExpenses = 100 ∧
    specNetExpenses c5Store 1 = 0 ∧
    (fetchTodayStockIn c5Store 1 false).map Prod.snd = [false] ∧
    (fetchTodayStockIn c5Store 1 true).map Prod.snd = [true, false] ∧
    ((fetchTodayStockIn c5Store 1 true).map Prod.fst).foldl
      (fun sum s => sum + s.quantity.getD 0) 0 = 0 := by
  refine ⟨by decide, by decide, ?_, ?_, by decide, by decide, by decide⟩
  · norm_num [loadData, fetchTodayStockIn, fetchTodayExpenses, fetchTodayIncome,
      fetchTodayClosings, fetchTodayWithdrawals, findPrevFinalClosing,
      buildStockItem, savedStockLookup, c5Store, c5T1, c5T2, c5E1, c5E2,
      List.filter]
  · have hd1 : decide (TxnType.stockIn = TxnType.expense) = false := rfl
    have hd2 : decide (TxnType.expense = TxnType.expense) = true := rfl
    norm_num [specNetExpenses, c5Store, c5T1, c5T2, c5E1, c5E2, List.filter,
      List.foldl, hd1, hd2]
